import Mathlib

/-!
Verification of the Agentic-AI demo repository.

Each Python function relevant to the specification is translated into an
executable Lean definition (a shallow embedding):

* machine-level randomness (`random.randint`, `random.random`) is passed in as
  explicit draw parameters or an indexed oracle, with the documented range of
  `random.randint` appearing as a hypothesis where a claim needs it;
* the hosted LLM API (`model.generate_content`) is an oracle
  `String → Except String String`: `Except.error e` models the call raising an
  exception whose rendered text is `e`, `Except.ok t` models a reply `t`;
* Python exceptions raised by a modelled function are `Except.error`;
* dictionaries with a fixed key set are records; dynamic timestamps are passed
  in as strings; Python `float` arithmetic is modelled over `ℚ`.

Fields of the source data classes that none of the modelled operations read or
write (images, ids, timestamps, UI-only metadata) are omitted from the records.
-/

namespace GameMaster

/-- Result dictionary of `tools.roll_dice`. -/
structure RollResult where
  total : Int
  rolls : List Int
  sides : Int
  count : Int
  description : String
deriving Repr, DecidableEq

/-- Python `repr` of a list of integers, as used in the f-string of
`roll_dice` (`[3, 5]`). -/
def pyIntListRepr (xs : List Int) : String :=
  "[" ++ String.intercalate ", " (xs.map toString) ++ "]"

/-- `tools.roll_dice(sides, count)`.  `rand i` is the outcome of the `i`-th
call of `random.randint(1, sides)`.  Raising `ValueError` is modelled as
`Except.error` carrying the exception message. -/
def roll_dice (rand : Nat → Int) (sides count : Int) : Except String RollResult :=
  if sides < 2 then Except.error "Dice must have at least 2 sides"
  else if count < 1 then Except.error "Must roll at least 1 die"
  else
    let rolls := (List.range count.toNat).map rand
    let total := rolls.sum
    Except.ok
      { total := total
        rolls := rolls
        sides := sides
        count := count
        description :=
          "Rolled " ++ toString count ++ "d" ++ toString sides ++ " = " ++
            pyIntListRepr rolls ++ " (Total: " ++ toString total ++ ")" }

/-- Result dictionary of `tools.calculate_combat_damage`. -/
structure CombatDamage where
  damage : Int
  is_critical : Bool
  base_damage : Int
  level_bonus : Int
  weapon_bonus : Int
  description : String
deriving Repr, DecidableEq

/-- `tools.calculate_combat_damage(attacker_level, weapon_power)`.
`base_roll` is the draw of `random.randint(1, 10)`, `weapon_roll` the draw of
`random.randint(1, 5)`, and `crit` the outcome of the 5% test
`random.random() < 0.05`. -/
def calculate_combat_damage (attacker_level weapon_power base_roll weapon_roll : Int)
    (crit : Bool) : CombatDamage :=
  let base_damage := base_roll
  let level_bonus := attacker_level * 2
  let weapon_bonus := weapon_power * weapon_roll
  let total_damage := base_damage + level_bonus + weapon_bonus
  let total_damage := if crit then total_damage * 2 else total_damage
  { damage := total_damage
    is_critical := crit
    base_damage := base_damage
    level_bonus := level_bonus
    weapon_bonus := weapon_bonus
    description :=
      (if crit then "CRITICAL HIT! " else "") ++ "Dealt " ++ toString total_damage ++ " damage" }

/-- A quest record of the quest log (`game_state.py`): the keys the code reads
(`title`, `completed`, `completed_at`, `rewards.experience`, `rewards.gold`),
with the `rewards` sub-dictionary's `.get(_, 0)` defaults already applied. -/
structure Quest where
  title : String
  completed : Bool
  completed_at : Option String
  rewards_experience : Int
  rewards_gold : Int
deriving Repr, DecidableEq

/-- The `Player` dataclass (fields read by the modelled operations). -/
structure Player where
  name : String
  level : Int
  health : Int
  max_health : Int
  experience : Int
  gold : Int
  quests : List Quest
deriving Repr, DecidableEq

/-- The mutable `GameState` (the modelled operations only touch `player`). -/
structure GameState where
  player : Player
deriving Repr, DecidableEq

/-- `GameState.add_experience`: returns the new state and the message. -/
def add_experience (gs : GameState) (amount : Int) : GameState × String :=
  let p := gs.player
  let experience := p.experience + amount
  let required_exp := p.level * 100
  if experience ≥ required_exp then
    ({ gs with player :=
        { p with
          level := p.level + 1
          experience := experience - required_exp
          max_health := p.max_health + 20
          health := p.max_health + 20 } },
      "🎉 Level up! You are now level " ++ toString (p.level + 1) ++ "!")
  else
    ({ gs with player := { p with experience := experience } },
      "Gained " ++ toString amount ++ " experience points.")

/-- `GameState.add_gold`. -/
def add_gold (gs : GameState) (amount : Int) : GameState × String :=
  ({ gs with player := { gs.player with gold := gs.player.gold + amount } },
    "Found " ++ toString amount ++ " gold pieces.")

/-- `GameState.heal_player`. -/
def heal_player (gs : GameState) (amount : Int) : GameState × String :=
  let old_health := gs.player.health
  let new_health := min (gs.player.health + amount) gs.player.max_health
  ({ gs with player := { gs.player with health := new_health } },
    "Healed " ++ toString (new_health - old_health) ++ " health points.")

/-- `GameState.damage_player`. -/
def damage_player (gs : GameState) (amount : Int) : GameState × String :=
  ({ gs with player := { gs.player with health := max 0 (gs.player.health - amount) } },
    "Took " ++ toString amount ++ " damage.")

/-- The `for quest in self.player.quests` loop of `GameState.complete_quest`:
finds the first quest whose title matches and whose `completed` flag is unset,
marks it (setting `completed_at` to `now`), and reports its rewards. -/
def mark_first_quest (t now : String) : List Quest → Option (List Quest × Int × Int)
  | [] => none
  | q :: qs =>
    if q.title = t ∧ q.completed = false then
      some ({ q with completed := true, completed_at := some now } :: qs,
        q.rewards_experience, q.rewards_gold)
    else
      (mark_first_quest t now qs).map (fun r => (q :: r.1, r.2))

/-- The reward block of `GameState.complete_quest`: `add_experience` when the
quest's experience reward is positive, then `add_gold` when its gold reward
is positive. -/
def grant_rewards (gs : GameState) (exp_gained gold_gained : Int) : GameState :=
  let gs := if exp_gained > 0 then (add_experience gs exp_gained).1 else gs
  let gs := if gold_gained > 0 then (add_gold gs gold_gained).1 else gs
  gs

/-- `GameState.complete_quest(quest_title)`; `now` is
`datetime.now().isoformat()`. -/
def complete_quest (gs : GameState) (quest_title now : String) : GameState × String :=
  match mark_first_quest quest_title now gs.player.quests with
  | none =>
    (gs, "Quest \x27" ++ quest_title ++ "\x27 not found or already completed.")
  | some (qs, exp_gained, gold_gained) =>
    let gs := { gs with player := { gs.player with quests := qs } }
    (grant_rewards gs exp_gained gold_gained,
      "Quest completed: " ++ quest_title ++ "!")

end GameMaster

namespace PyStr

/-- Whether `hay` begins with `needle` (character lists). -/
def startsWithSeq : List Char → List Char → Bool
  | _, [] => true
  | [], _ :: _ => false
  | a :: as, b :: bs => a = b && startsWithSeq as bs

/-- Python substring containment `needle in hay` (character lists). -/
def containsSeq (needle : List Char) : List Char → Bool
  | [] => startsWithSeq [] needle
  | a :: t => startsWithSeq (a :: t) needle || containsSeq needle t

/-- Python `str.lower` on the ASCII fragment the keyword router uses. -/
def py_lower (s : String) : List Char := s.toList.map Char.toLower

end PyStr

namespace CareerMentor

/-- `any(word in query_lower for word in words)`. -/
def any_word_in (words : List String) (query_lower : List Char) : Bool :=
  words.any (fun w => PyStr.containsSeq w.toList query_lower)

/-- Dictionary returned by the `AgentOrchestrator._handle_*_query` helpers. -/
structure OrchestratorResponse where
  primary_agent : String
  response : String
  suggested_next : String
deriving Repr, DecidableEq

/-- `AgentOrchestrator._handle_career_query`; `career_agent` is the oracle for
`self.career_agent.process_message(query, context)`. -/
def handle_career_query (career_agent : String → String) (query : String) :
    OrchestratorResponse :=
  { primary_agent := "CareerAgent"
    response := career_agent query
    suggested_next := "Would you like to explore skills needed for any specific career?" }

/-- `AgentOrchestrator._handle_skill_query`. -/
def handle_skill_query (skill_agent : String → String) (query : String) :
    OrchestratorResponse :=
  { primary_agent := "SkillAgent"
    response := skill_agent query
    suggested_next := "Would you like to learn about job opportunities in this field?" }

/-- `AgentOrchestrator._handle_job_query`. -/
def handle_job_query (job_agent : String → String) (query : String) :
    OrchestratorResponse :=
  { primary_agent := "JobAgent"
    response := job_agent query
    suggested_next := "Would you like to explore the career path for this role?" }

/-- `AgentOrchestrator.process_user_query`: the keyword `if/elif` router. -/
def process_user_query (career_agent skill_agent job_agent : String → String)
    (query : String) : OrchestratorResponse :=
  let query_lower := PyStr.py_lower query
  if any_word_in ["career", "path", "field", "recommend"] query_lower then
    handle_career_query career_agent query
  else if any_word_in ["skill", "learn", "roadmap", "training"] query_lower then
    handle_skill_query skill_agent query
  else if any_word_in ["job", "role", "position", "interview", "salary"] query_lower then
    handle_job_query job_agent query
  else
    handle_career_query career_agent query

/-- `GeminiClient.generate_response`: builds the prompt (`context` is falsy
exactly when empty) and converts any exception of the API call into the
error string. -/
def generate_response (api : String → Except String String) (prompt context : String) :
    String :=
  let full_prompt := if context ≠ "" then context ++ "\n\n" ++ prompt else prompt
  match api full_prompt with
  | Except.ok response => response
  | Except.error e => "Error generating response: " ++ e

end CareerMentor

namespace GameMaster

/-- The fixed text of `BaseAgent._get_tools_description`. -/
def tools_description : String :=
  "\n        Available tools:\n        - roll_dice(sides: int, count: int): Roll dice for game mechanics\n        - generate_event(event_type: str): Generate random events\n        - calculate_combat_damage(attacker_level: int, weapon_power: int): Calculate combat damage\n        - generate_loot(monster_level: int, rarity: str): Generate loot\n        "

/-- Game Master `BaseAgent.generate_response`: builds the prompt, converts any
exception of the API call into the error string, and appends to the
conversation history only on success (`game_state` is the `json.dumps`
rendering of a truthy game-state dictionary, `none` when absent). -/
def generate_response (system_prompt : String) (history : List (String × String))
    (api : String → Except String String) (user_input : String)
    (game_state : Option String) : String × List (String × String) :=
  let full_prompt := system_prompt ++ "\n\n" ++ tools_description ++ "\n\n"
  let full_prompt := full_prompt ++
    (match game_state with
      | some s => "Current game state: " ++ s ++ "\n\n"
      | none => "")
  let full_prompt := full_prompt ++ "User input: " ++ user_input ++ "\n\n"
  let full_prompt := full_prompt ++
    "Please respond in a natural, engaging way. If you need to use tools, describe what you're doing and the results."
  match api full_prompt with
  | Except.ok text => (text, history ++ [("user", user_input), ("assistant", text)])
  | Except.error e => ("Error generating response: " ++ e, history)

end GameMaster

namespace Traveller

/-- The `Config` class of the Traveller app. -/
structure Config where
  GEMINI_API_KEY : Option String
  GEMINI_MODEL : String
  MAX_RETRIES : Int
  TIMEOUT_SECONDS : Int
  MOCK_FLIGHTS_ENABLED : Bool
  MOCK_HOTELS_ENABLED : Bool
  MOCK_ATTRACTIONS_ENABLED : Bool
deriving Repr, DecidableEq

/-- The class body of `config.py`, with the environment variable as input. -/
def make_config (gemini_api_key : Option String) : Config :=
  { GEMINI_API_KEY := gemini_api_key
    GEMINI_MODEL := "gemini-1.5-flash"
    MAX_RETRIES := 3
    TIMEOUT_SECONDS := 30
    MOCK_FLIGHTS_ENABLED := true
    MOCK_HOTELS_ENABLED := true
    MOCK_ATTRACTIONS_ENABLED := true }

/-- The mutable fields of the Traveller `BaseAgent` (`model` records whether
`self.model` was configured; the tool dictionaries are kept as their names,
their JSON dump being abstracted in `build_prompt`). -/
structure AgentState where
  name : String
  description : String
  model : Bool
  tools : List String
  conversation_history : List (String × String)
deriving Repr, DecidableEq

/-- `BaseAgent.__init__`: the model is configured exactly when
`Config.GEMINI_API_KEY` is present. -/
def init_agent (cfg : Config) (name description : String) : AgentState :=
  { name := name
    description := description
    model := cfg.GEMINI_API_KEY.isSome
    tools := []
    conversation_history := [] }

/-- `BaseAgent._build_prompt` (the `json.dumps` of the tool dictionaries is
abstracted to a rendering of the tool names; history entries are
role-content pairs). -/
def build_prompt (ag : AgentState) (prompt : String) (context : Option String) : String :=
  let system_prompt :=
    "You are " ++ ag.name ++
      ", a specialized travel agent with the following description: " ++ ag.description ++
      "\n\nYour role is to help users with their travel needs by providing accurate, helpful, and personalized recommendations.\n\nAvailable tools: " ++
      (if ag.tools.isEmpty then "None" else String.intercalate ", " ag.tools) ++
      "\n\nPlease respond in a helpful, professional manner. If you need to use tools, specify which tool and provide the necessary parameters.\n"
  let system_prompt := system_prompt ++
    (match context with
      | some c => "\nContext: " ++ c ++ "\n"
      | none => "")
  let system_prompt := system_prompt ++
    (if ag.conversation_history.isEmpty then "" else
      "\nConversation History:\n" ++
        String.join
          ((ag.conversation_history.drop (ag.conversation_history.length - 5)).map
            (fun m => m.1 ++ ": " ++ m.2 ++ "\n")))
  system_prompt ++ "\n\nUser Request: " ++ prompt ++ "\n\nResponse:"

/-- `BaseAgent.call_gemini` (`cfg` is the `Config` module the method sees;
the API oracle models `asyncio.to_thread(self.model.generate_content, _)`). -/
def call_gemini (cfg : Config) (ag : AgentState) (api : String → Except String String)
    (prompt : String) (context : Option String) : String :=
  if ag.model = false then "Mock response from " ++ ag.name ++ ": " ++ prompt
  else
    let full_prompt := build_prompt ag prompt context
    match api full_prompt with
    | Except.ok response => response
    | Except.error e => "Error: Unable to process request - " ++ e

/-- The fields of `TravelRequest` the coordination path reads (`mood` and
`budget` hold the enum `.value` strings). -/
structure TravelRequest where
  user_name : String
  destination_preferences : List String
  mood : String
  budget : String
  num_travelers : Int
  special_requirements : List String
deriving Repr, DecidableEq

/-- One entry of the destination agent's `recommendations` list (only the
`destination` key is read by the coordinator). -/
structure RecommendationItem (δ : Type) where
  destination : δ
deriving Repr, DecidableEq

/-- The `data` dictionary of a successful destination-agent response. -/
structure DestinationData (δ : Type) where
  recommendations : List (RecommendationItem δ)
deriving Repr, DecidableEq

/-- The `data` dictionary of a successful booking-agent response (the keys the
coordinator reads). -/
structure BookingData (φ η : Type) where
  flights : List φ
  hotels : List η
  total_cost : ℚ
deriving Repr, DecidableEq

/-- The `data` dictionary of a successful explore-agent response (the keys the
coordinator reads). -/
structure ExploreData (χ ρ : Type) where
  attractions : List χ
  restaurants : List ρ
deriving Repr, DecidableEq

/-- The `TravelPlan` dataclass (fields set by `_create_complete_plan`). -/
structure TravelPlan (δ φ η χ ρ : Type) where
  request : TravelRequest
  destination : δ
  flights : List φ
  hotel : Option η
  attractions : List χ
  restaurants : List ρ
  total_cost : ℚ
  status : String
deriving Repr, DecidableEq

/-- The `AgentResponse` dataclass (timestamp omitted). -/
structure AgentResponse (α : Type) where
  success : Bool
  message : String
  data : Option α
  agent_name : String
deriving Repr, DecidableEq

/-- `BaseAgent.create_response`. -/
def create_response (agent_name : String) (success : Bool) (message : String)
    (data : Option α) : AgentResponse α :=
  { success := success, message := message, data := data, agent_name := agent_name }

/-- The `data` dictionary of the coordinator's success response. -/
structure FinalData (δ φ η χ ρ : Type) where
  travel_plan : TravelPlan δ φ η χ ρ
  session_id : String
  agents_used : List String
  total_cost : ℚ
deriving Repr, DecidableEq

/-- The dynamically typed `data` payload a `TravelCoordinator` response can
carry (Python passes the specialized agents' payloads through unchanged). -/
inductive CoordData (δ φ η χ ρ : Type) where
  | destinationData (d : DestinationData δ)
  | bookingData (b : BookingData φ η)
  | exploreData (e : ExploreData χ ρ)
  | finalData (f : FinalData δ φ η χ ρ)
deriving DecidableEq

/-- Re-typing an agent response when the coordinator returns it as its own
result (success, message and agent name are untouched). -/
def map_data (f : α → β) (r : AgentResponse α) : AgentResponse β :=
  { success := r.success, message := r.message, data := r.data.map f,
    agent_name := r.agent_name }

/-- The `results` dictionary of a planning session (fixed key set). -/
structure SessionResults (δ φ η χ ρ : Type) where
  destination : Option (DestinationData δ)
  booking : Option (BookingData φ η)
  explore : Option (ExploreData χ ρ)
  final_plan : Option (TravelPlan δ φ η χ ρ)
deriving DecidableEq

/-- A `self.active_sessions[session_id]` record. -/
structure Session (δ φ η χ ρ : Type) where
  request : TravelRequest
  status : String
  steps_completed : List String
  results : SessionResults δ φ η χ ρ
deriving DecidableEq

/-- The freshly created `results` dictionary. -/
def empty_results : SessionResults δ φ η χ ρ := ⟨none, none, none, none⟩

/-- Session bookkeeping of `_handoff_to_destination_agent`: the step and its
data are recorded only when the response succeeded. -/
def handoff_to_destination_agent (response : AgentResponse (DestinationData δ))
    (ses : Session δ φ η χ ρ) : Session δ φ η χ ρ :=
  if response.success then
    { ses with
      steps_completed := ses.steps_completed ++ ["destination"]
      results := { ses.results with destination := response.data } }
  else ses

/-- Session bookkeeping of `_handoff_to_booking_agent`. -/
def handoff_to_booking_agent (response : AgentResponse (BookingData φ η))
    (ses : Session δ φ η χ ρ) : Session δ φ η χ ρ :=
  if response.success then
    { ses with
      steps_completed := ses.steps_completed ++ ["booking"]
      results := { ses.results with booking := response.data } }
  else ses

/-- Session bookkeeping of `_handoff_to_explore_agent`. -/
def handoff_to_explore_agent (response : AgentResponse (ExploreData χ ρ))
    (ses : Session δ φ η χ ρ) : Session δ φ η χ ρ :=
  if response.success then
    { ses with
      steps_completed := ses.steps_completed ++ ["explore"]
      results := { ses.results with explore := response.data } }
  else ses

/-- `destination_response.data["recommendations"][0]["destination"]`: `none`
models the subscripting raising (`TypeError` on a `None` payload,
`IndexError` on an empty list). -/
def selected_destination (r : AgentResponse (DestinationData δ)) : Option δ :=
  match r.data with
  | none => none
  | some d => (d.recommendations.head?).map (fun it => it.destination)

/-- `_create_complete_plan`: `none` models an extraction raising and
propagating to `process_request`'s handler. -/
def create_complete_plan (request : TravelRequest)
    (destination_response : AgentResponse (DestinationData δ))
    (booking_response : AgentResponse (BookingData φ η))
    (explore_response : AgentResponse (ExploreData χ ρ)) :
    Option (TravelPlan δ φ η χ ρ) :=
  match selected_destination destination_response,
      booking_response.data, explore_response.data with
  | some destination, some bd, some ed =>
    some
      { request := request
        destination := destination
        flights := bd.flights
        hotel := bd.hotels.head?
        attractions := ed.attractions
        restaurants := ed.restaurants
        total_cost := bd.total_cost
        status := "complete" }
  | _, _, _ => none

/-- The rendering `str(e)` of an exception caught by `process_request`'s
`except` clause is abstracted to a fixed marker. -/
def caught_exception_text : String := "<exception>"

/-- The success message of `process_request` (step 4 f-string). -/
def success_message (dmsg bmsg emsg final_summary session_id : String) : String :=
  "\n🎉 Your complete travel plan is ready!\n\n" ++ dmsg ++ "\n\n" ++ bmsg ++
    "\n\n" ++ emsg ++ "\n\n" ++ final_summary ++ "\n\nSession ID: " ++ session_id ++
    "\n                "

/-- `TravelCoordinator.process_request`.  The specialized agents are oracles
(the booking and explore agents receive the selected destination, as in the
request dictionaries the coordinator builds); `final_summary` is the oracle
for `_generate_final_summary` (whose `call_gemini` never raises).  The third
component of the result is the trace of specialized-agent invocations, in
order. -/
def process_request (dest_agent : AgentResponse (DestinationData δ))
    (booking_agent : δ → AgentResponse (BookingData φ η))
    (explore_agent : δ → AgentResponse (ExploreData χ ρ))
    (final_summary : TravelPlan δ φ η χ ρ → String)
    (session_id : String) (request : TravelRequest) :
    AgentResponse (CoordData δ φ η χ ρ) × Session δ φ η χ ρ × List String :=
  let session : Session δ φ η χ ρ :=
    { request := request, status := "started", steps_completed := [],
      results := empty_results }
  -- Step 1: Destination Planning
  let destination_response := dest_agent
  let session := handoff_to_destination_agent destination_response session
  if destination_response.success = false then
    (map_data CoordData.destinationData destination_response, session, ["destination"])
  else
    match selected_destination destination_response with
    | none =>
      -- the subscripting of `destination_response.data` raised; the outer
      -- `except` turns it into a failure response
      (create_response "TravelCoordinator" false
          ("Error in travel coordination: " ++ caught_exception_text) none,
        session, ["destination"])
    | some selected =>
      -- Step 2: Booking Planning
      let booking_response := booking_agent selected
      let session := handoff_to_booking_agent booking_response session
      if booking_response.success = false then
        (map_data CoordData.bookingData booking_response, session,
          ["destination", "booking"])
      else
        -- Step 3: Exploration Planning
        let explore_response := explore_agent selected
        let session := handoff_to_explore_agent explore_response session
        if explore_response.success = false then
          (map_data CoordData.exploreData explore_response, session,
            ["destination", "booking", "explore"])
        else
          -- Step 4: Create Complete Travel Plan
          match create_complete_plan request destination_response booking_response
              explore_response with
          | none =>
            (create_response "TravelCoordinator" false
                ("Error in travel coordination: " ++ caught_exception_text) none,
              session, ["destination", "booking", "explore"])
          | some travel_plan =>
            let session :=
              { session with
                status := "completed"
                results := { session.results with final_plan := some travel_plan } }
            (create_response "TravelCoordinator" true
                (success_message destination_response.message booking_response.message
                  explore_response.message (final_summary travel_plan) session_id)
                (some (CoordData.finalData
                  { travel_plan := travel_plan, session_id := session_id,
                    agents_used := ["DestinationAgent", "BookingAgent", "ExploreAgent"],
                    total_cost := travel_plan.total_cost })),
              session, ["destination", "booking", "explore"])

/-- The statistics dictionary of `get_coordinator_stats`. -/
structure CoordinatorStats where
  total_sessions : Nat
  completed_sessions : Nat
  active_sessions : Nat
  success_rate : ℚ
  agents_available : List String

/-- `TravelCoordinator.get_coordinator_stats` over the `active_sessions`
dictionary (float arithmetic over `ℚ`). -/
def get_coordinator_stats (active_sessions : List (String × Session δ φ η χ ρ))
    (agent_names : List String) : CoordinatorStats :=
  let total_sessions := active_sessions.length
  let completed_sessions :=
    (active_sessions.filter (fun s => s.2.status == "completed")).length
  { total_sessions := total_sessions
    completed_sessions := completed_sessions
    active_sessions := total_sessions - completed_sessions
    success_rate :=
      if total_sessions > 0 then
        (completed_sessions : ℚ) / (total_sessions : ℚ) * 100
      else 0
    agents_available := agent_names }

end Traveller

/-- C6: for every attacker level and weapon power, `calculate_combat_damage`
returns damage equal to `base_damage + attacker_level * 2 + weapon_power * w`
(with the base draw in `[1, 10]` and `w` in `[1, 5]`), the whole sum doubled
exactly when the 5% critical branch is taken, and the returned `base_damage`,
`level_bonus`, `weapon_bonus` fields are those summands. -/
theorem C6_combat_damage_spec (attacker_level weapon_power base_roll weapon_roll : Int)
    (crit : Bool) (hb : 1 ≤ base_roll ∧ base_roll ≤ 10)
    (hw : 1 ≤ weapon_roll ∧ weapon_roll ≤ 5) :
    (GameMaster.calculate_combat_damage attacker_level weapon_power base_roll weapon_roll
        crit).damage =
      (if crit then 2 else 1) * (base_roll + attacker_level * 2 + weapon_power * weapon_roll) ∧
    (GameMaster.calculate_combat_damage attacker_level weapon_power base_roll weapon_roll
        crit).base_damage = base_roll ∧
    (GameMaster.calculate_combat_damage attacker_level weapon_power base_roll weapon_roll
        crit).level_bonus = attacker_level * 2 ∧
    (GameMaster.calculate_combat_damage attacker_level weapon_power base_roll weapon_roll
        crit).weapon_bonus = weapon_power * weapon_roll := by
  cases crit <;> simp [GameMaster.calculate_combat_damage] <;> ring

theorem C6_combat_damage_witness :
    (GameMaster.calculate_combat_damage 3 2 5 4 true).damage =
      (if true then 2 else 1) * (5 + 3 * 2 + 2 * 4) ∧
    (GameMaster.calculate_combat_damage 3 2 5 4 true).base_damage = 5 ∧
    (GameMaster.calculate_combat_damage 3 2 5 4 true).level_bonus = 3 * 2 ∧
    (GameMaster.calculate_combat_damage 3 2 5 4 true).weapon_bonus = 2 * 4 :=
  C6_combat_damage_spec 3 2 5 4 true (by decide) (by decide)

/-- C8: if `0 ≤ health ≤ max_health` holds, then `heal_player`,
`damage_player` and `add_experience` with a non-negative amount preserve
`0 ≤ health ≤ max_health`. -/
theorem C8_health_invariant (gs : GameMaster.GameState) (amount : Int)
    (h0 : 0 ≤ gs.player.health) (h1 : gs.player.health ≤ gs.player.max_health)
    (ha : 0 ≤ amount) :
    (0 ≤ (GameMaster.heal_player gs amount).1.player.health ∧
      (GameMaster.heal_player gs amount).1.player.health ≤
        (GameMaster.heal_player gs amount).1.player.max_health) ∧
    (0 ≤ (GameMaster.damage_player gs amount).1.player.health ∧
      (GameMaster.damage_player gs amount).1.player.health ≤
        (GameMaster.damage_player gs amount).1.player.max_health) ∧
    (0 ≤ (GameMaster.add_experience gs amount).1.player.health ∧
      (GameMaster.add_experience gs amount).1.player.health ≤
        (GameMaster.add_experience gs amount).1.player.max_health) := by
  rcases gs with ⟨⟨nm, lv, hp, mh, xp, gd, qs⟩⟩
  simp only [GameMaster.heal_player, GameMaster.damage_player, GameMaster.add_experience] at *
  refine ⟨⟨?_, ?_⟩, ⟨?_, ?_⟩, ?_, ?_⟩ <;> (try split_ifs) <;> dsimp only at * <;> omega

theorem C8_health_invariant_witness :
    (0 ≤ (GameMaster.heal_player ⟨⟨"Adventurer", 1, 90, 100, 0, 50, []⟩⟩ 30).1.player.health ∧
      (GameMaster.heal_player ⟨⟨"Adventurer", 1, 90, 100, 0, 50, []⟩⟩ 30).1.player.health ≤
        (GameMaster.heal_player ⟨⟨"Adventurer", 1, 90, 100, 0, 50, []⟩⟩ 30).1.player.max_health) ∧
    (0 ≤ (GameMaster.damage_player ⟨⟨"Adventurer", 1, 90, 100, 0, 50, []⟩⟩ 30).1.player.health ∧
      (GameMaster.damage_player ⟨⟨"Adventurer", 1, 90, 100, 0, 50, []⟩⟩ 30).1.player.health ≤
        (GameMaster.damage_player ⟨⟨"Adventurer", 1, 90, 100, 0, 50, []⟩⟩ 30).1.player.max_health) ∧
    (0 ≤ (GameMaster.add_experience ⟨⟨"Adventurer", 1, 90, 100, 0, 50, []⟩⟩ 30).1.player.health ∧
      (GameMaster.add_experience ⟨⟨"Adventurer", 1, 90, 100, 0, 50, []⟩⟩ 30).1.player.health ≤
        (GameMaster.add_experience ⟨⟨"Adventurer", 1, 90, 100, 0, 50, []⟩⟩ 30).1.player.max_health) :=
  C8_health_invariant ⟨⟨"Adventurer", 1, 90, 100, 0, 50, []⟩⟩ 30 (by decide) (by decide) (by decide)

/-- C9: `roll_dice` raises `ValueError` exactly when `sides < 2` or
`count < 1`; otherwise it returns a record whose `rolls` list has exactly
`count` entries, each entry within the range of the `random.randint(1, sides)`
draws, and whose `total` equals the sum of the rolls. -/
theorem C9_roll_dice_spec (rand : Nat → Int) (sides count : Int) :
    ((∃ e, GameMaster.roll_dice rand sides count = Except.error e) ↔
      sides < 2 ∨ count < 1) ∧
    (∀ r, GameMaster.roll_dice rand sides count = Except.ok r →
      r.rolls.length = count.toNat ∧ r.total = r.rolls.sum ∧
      ((∀ i, 1 ≤ rand i ∧ rand i ≤ sides) → ∀ x ∈ r.rolls, 1 ≤ x ∧ x ≤ sides)) := by
  constructor
  · constructor
    · intro h
      by_contra hc
      push_neg at hc
      obtain ⟨e, he⟩ := h
      simp only [GameMaster.roll_dice] at he
      rw [if_neg (by omega), if_neg (by omega)] at he
      cases he
    · intro h
      simp only [GameMaster.roll_dice]
      by_cases h2 : sides < 2
      · rw [if_pos h2]; exact ⟨_, rfl⟩
      · rw [if_neg h2, if_pos (by omega)]; exact ⟨_, rfl⟩
  · intro r hr
    simp only [GameMaster.roll_dice] at hr
    by_cases h2 : sides < 2
    · rw [if_pos h2] at hr; cases hr
    · rw [if_neg h2] at hr
      by_cases h1 : count < 1
      · rw [if_pos h1] at hr; cases hr
      · rw [if_neg h1] at hr
        cases hr
        refine ⟨by simp, rfl, fun hb x hx => ?_⟩
        obtain ⟨i, _, rfl⟩ := List.mem_map.mp hx
        exact hb i

theorem C9_roll_dice_witness :
    (⟨6, [3, 3], 6, 2, "Rolled 2d6 = [3, 3] (Total: 6)"⟩ : GameMaster.RollResult).rolls.length =
        (2 : Int).toNat ∧
      (⟨6, [3, 3], 6, 2, "Rolled 2d6 = [3, 3] (Total: 6)"⟩ : GameMaster.RollResult).total =
        (⟨6, [3, 3], 6, 2, "Rolled 2d6 = [3, 3] (Total: 6)"⟩ : GameMaster.RollResult).rolls.sum ∧
      ((∀ i : Nat, 1 ≤ (fun _ => (3 : Int)) i ∧ (fun _ => (3 : Int)) i ≤ 6) →
        ∀ x ∈ (⟨6, [3, 3], 6, 2, "Rolled 2d6 = [3, 3] (Total: 6)"⟩ : GameMaster.RollResult).rolls,
          1 ≤ x ∧ x ≤ 6) :=
  (C9_roll_dice_spec (fun _ => 3) 6 2).2
    ⟨6, [3, 3], 6, 2, "Rolled 2d6 = [3, 3] (Total: 6)"⟩ rfl

/-- Granting rewards never touches the quest log. -/
theorem grant_rewards_quests (gs : GameMaster.GameState) (e g : Int) :
    (GameMaster.grant_rewards gs e g).player.quests = gs.player.quests := by
  simp only [GameMaster.grant_rewards, GameMaster.add_experience, GameMaster.add_gold]
  split_ifs <;> (try split) <;> rfl

/-- The quest-log scan returns `none` when no quest matches the title with an
unset `completed` flag. -/
theorem mark_first_quest_none (t now : String) (l : List GameMaster.Quest)
    (h : ∀ q ∈ l, ¬(q.title = t ∧ q.completed = false)) :
    GameMaster.mark_first_quest t now l = none := by
  induction l with
  | nil => rfl
  | cons q qs ih =>
    simp only [GameMaster.mark_first_quest]
    rw [if_neg (h q (by simp)), ih (fun q' hq' => h q' (by simp [hq']))]
    rfl

/-- The quest-log scan marks exactly the first matching incomplete quest and
reports its rewards. -/
theorem mark_first_quest_found (t now : String) (pre post : List GameMaster.Quest)
    (q : GameMaster.Quest)
    (hpre : ∀ q' ∈ pre, ¬(q'.title = t ∧ q'.completed = false))
    (ht : q.title = t) (hc : q.completed = false) :
    GameMaster.mark_first_quest t now (pre ++ q :: post) =
      some (pre ++ { q with completed := true, completed_at := some now } :: post,
        q.rewards_experience, q.rewards_gold) := by
  induction pre with
  | nil => simp only [List.nil_append, GameMaster.mark_first_quest]; rw [if_pos ⟨ht, hc⟩]
  | cons p ps ih =>
    simp only [List.cons_append, GameMaster.mark_first_quest]
    rw [if_neg (hpre p (by simp)), List.append_eq,
      ih (fun q' hq' => hpre q' (by simp [hq']))]
    rfl

/-- C7: `complete_quest` marks only the first quest whose title matches and
whose `completed` flag is unset, granting its experience and gold rewards in
the same call; when no incomplete quest bears the title it changes no state
and returns the "not found or already completed" message; in particular a
second call with the same title (when no other incomplete quest bears that
title) is a no-op returning that message. -/
theorem C7_complete_quest_spec (gs : GameMaster.GameState) (t now now2 : String)
    (pre post : List GameMaster.Quest) (q : GameMaster.Quest) :
    (gs.player.quests = pre ++ q :: post →
      (∀ q' ∈ pre, ¬(q'.title = t ∧ q'.completed = false)) →
      q.title = t → q.completed = false →
      GameMaster.complete_quest gs t now =
        (GameMaster.grant_rewards
          { gs with player := { gs.player with quests :=
              pre ++ { q with completed := true, completed_at := some now } :: post } }
          q.rewards_experience q.rewards_gold,
          "Quest completed: " ++ t ++ "!")) ∧
    ((∀ q' ∈ gs.player.quests, ¬(q'.title = t ∧ q'.completed = false)) →
      GameMaster.complete_quest gs t now =
        (gs, "Quest \x27" ++ t ++ "\x27 not found or already completed.")) ∧
    (gs.player.quests = pre ++ q :: post →
      (∀ q' ∈ pre ++ post, ¬(q'.title = t ∧ q'.completed = false)) →
      q.title = t → q.completed = false →
      GameMaster.complete_quest (GameMaster.complete_quest gs t now).1 t now2 =
        ((GameMaster.complete_quest gs t now).1,
          "Quest \x27" ++ t ++ "\x27 not found or already completed.")) := by
  have hA : gs.player.quests = pre ++ q :: post →
      (∀ q' ∈ pre, ¬(q'.title = t ∧ q'.completed = false)) →
      q.title = t → q.completed = false →
      GameMaster.complete_quest gs t now =
        (GameMaster.grant_rewards
          { gs with player := { gs.player with quests :=
              pre ++ { q with completed := true, completed_at := some now } :: post } }
          q.rewards_experience q.rewards_gold,
          "Quest completed: " ++ t ++ "!") := by
    intro h hpre ht hc
    simp only [GameMaster.complete_quest, h,
      mark_first_quest_found t now pre post q hpre ht hc]
  refine ⟨hA, ?_, ?_⟩
  · intro hall
    simp only [GameMaster.complete_quest, mark_first_quest_none t now _ hall]
  · intro h hpp ht hc
    have hpre : ∀ q' ∈ pre, ¬(q'.title = t ∧ q'.completed = false) :=
      fun q' hq' => hpp q' (List.mem_append_left _ hq')
    have hpost : ∀ q' ∈ post, ¬(q'.title = t ∧ q'.completed = false) :=
      fun q' hq' => hpp q' (List.mem_append_right _ hq')
    rw [hA h hpre ht hc]
    have hnone : ∀ q' ∈ (GameMaster.grant_rewards
        { gs with player := { gs.player with quests :=
            pre ++ { q with completed := true, completed_at := some now } :: post } }
        q.rewards_experience q.rewards_gold).player.quests,
        ¬(q'.title = t ∧ q'.completed = false) := by
      intro q' hq'
      rw [grant_rewards_quests] at hq'
      rcases List.mem_append.mp hq' with h1 | h1
      · exact hpre q' h1
      · rcases List.mem_cons.mp h1 with rfl | h1
        · exact fun hcontr => by simp at hcontr
        · exact hpost q' h1
    simp only [GameMaster.complete_quest, mark_first_quest_none t now2 _ hnone]

theorem C7_complete_quest_witness :
    GameMaster.complete_quest
        (GameMaster.complete_quest
          ⟨⟨"Adventurer", 1, 100, 100, 0, 50,
            [⟨"Slay", true, none, 0, 0⟩, ⟨"Slay", false, none, 50, 10⟩]⟩⟩ "Slay" "T1").1
        "Slay" "T2" =
      ((GameMaster.complete_quest
          ⟨⟨"Adventurer", 1, 100, 100, 0, 50,
            [⟨"Slay", true, none, 0, 0⟩, ⟨"Slay", false, none, 50, 10⟩]⟩⟩ "Slay" "T1").1,
        "Quest \x27Slay\x27 not found or already completed.") :=
  (C7_complete_quest_spec
      ⟨⟨"Adventurer", 1, 100, 100, 0, 50,
        [⟨"Slay", true, none, 0, 0⟩, ⟨"Slay", false, none, 50, 10⟩]⟩⟩ "Slay" "T1" "T2"
      [⟨"Slay", true, none, 0, 0⟩] [] ⟨"Slay", false, none, 50, 10⟩).2.2
    rfl (by decide) rfl rfl

/-- `process_request` when the destination step fails. -/
theorem process_request_dest_fail {δ φ η χ ρ : Type}
    (d : Traveller.AgentResponse (Traveller.DestinationData δ))
    (bk : δ → Traveller.AgentResponse (Traveller.BookingData φ η))
    (ex : δ → Traveller.AgentResponse (Traveller.ExploreData χ ρ))
    (fs : Traveller.TravelPlan δ φ η χ ρ → String)
    (sid : String) (req : Traveller.TravelRequest)
    (hd : d.success = false) :
    Traveller.process_request d bk ex fs sid req =
      (Traveller.map_data Traveller.CoordData.destinationData d,
        ⟨req, "started", [], Traveller.empty_results⟩, ["destination"]) := by
  simp [Traveller.process_request, Traveller.handoff_to_destination_agent, hd]

/-- `process_request` when the destination step succeeds but its payload has
no usable recommendation (the extraction raises). -/
theorem process_request_sel_none {δ φ η χ ρ : Type}
    (d : Traveller.AgentResponse (Traveller.DestinationData δ))
    (bk : δ → Traveller.AgentResponse (Traveller.BookingData φ η))
    (ex : δ → Traveller.AgentResponse (Traveller.ExploreData χ ρ))
    (fs : Traveller.TravelPlan δ φ η χ ρ → String)
    (sid : String) (req : Traveller.TravelRequest)
    (hd : d.success = true) (hsel : Traveller.selected_destination d = none) :
    Traveller.process_request d bk ex fs sid req =
      (Traveller.create_response "TravelCoordinator" false
          ("Error in travel coordination: " ++ Traveller.caught_exception_text) none,
        ⟨req, "started", ["destination"], ⟨d.data, none, none, none⟩⟩,
        ["destination"]) := by
  simp [Traveller.process_request, Traveller.handoff_to_destination_agent, hd, hsel,
    Traveller.empty_results]

/-- `process_request` when the booking step fails. -/
theorem process_request_book_fail {δ φ η χ ρ : Type}
    (d : Traveller.AgentResponse (Traveller.DestinationData δ))
    (bk : δ → Traveller.AgentResponse (Traveller.BookingData φ η))
    (ex : δ → Traveller.AgentResponse (Traveller.ExploreData χ ρ))
    (fs : Traveller.TravelPlan δ φ η χ ρ → String)
    (sid : String) (req : Traveller.TravelRequest) (sel : δ)
    (hd : d.success = true) (hsel : Traveller.selected_destination d = some sel)
    (hb : (bk sel).success = false) :
    Traveller.process_request d bk ex fs sid req =
      (Traveller.map_data Traveller.CoordData.bookingData (bk sel),
        ⟨req, "started", ["destination"], ⟨d.data, none, none, none⟩⟩,
        ["destination", "booking"]) := by
  simp [Traveller.process_request, Traveller.handoff_to_destination_agent,
    Traveller.handoff_to_booking_agent, hd, hsel, hb, Traveller.empty_results]

/-- `process_request` when the explore step fails. -/
theorem process_request_explore_fail {δ φ η χ ρ : Type}
    (d : Traveller.AgentResponse (Traveller.DestinationData δ))
    (bk : δ → Traveller.AgentResponse (Traveller.BookingData φ η))
    (ex : δ → Traveller.AgentResponse (Traveller.ExploreData χ ρ))
    (fs : Traveller.TravelPlan δ φ η χ ρ → String)
    (sid : String) (req : Traveller.TravelRequest) (sel : δ)
    (hd : d.success = true) (hsel : Traveller.selected_destination d = some sel)
    (hbt : (bk sel).success = true) (he : (ex sel).success = false) :
    Traveller.process_request d bk ex fs sid req =
      (Traveller.map_data Traveller.CoordData.exploreData (ex sel),
        ⟨req, "started", ["destination", "booking"],
          ⟨d.data, (bk sel).data, none, none⟩⟩,
        ["destination", "booking", "explore"]) := by
  simp [Traveller.process_request, Traveller.handoff_to_destination_agent,
    Traveller.handoff_to_booking_agent, Traveller.handoff_to_explore_agent,
    hd, hsel, hbt, he, Traveller.empty_results]

/-- `process_request` when all three steps succeed but the plan-building
extraction raises. -/
theorem process_request_plan_none {δ φ η χ ρ : Type}
    (d : Traveller.AgentResponse (Traveller.DestinationData δ))
    (bk : δ → Traveller.AgentResponse (Traveller.BookingData φ η))
    (ex : δ → Traveller.AgentResponse (Traveller.ExploreData χ ρ))
    (fs : Traveller.TravelPlan δ φ η χ ρ → String)
    (sid : String) (req : Traveller.TravelRequest) (sel : δ)
    (hd : d.success = true) (hsel : Traveller.selected_destination d = some sel)
    (hbt : (bk sel).success = true) (het : (ex sel).success = true)
    (hp : Traveller.create_complete_plan req d (bk sel) (ex sel) = none) :
    Traveller.process_request d bk ex fs sid req =
      (Traveller.create_response "TravelCoordinator" false
          ("Error in travel coordination: " ++ Traveller.caught_exception_text) none,
        ⟨req, "started", ["destination", "booking", "explore"],
          ⟨d.data, (bk sel).data, (ex sel).data, none⟩⟩,
        ["destination", "booking", "explore"]) := by
  simp [Traveller.process_request, Traveller.handoff_to_destination_agent,
    Traveller.handoff_to_booking_agent, Traveller.handoff_to_explore_agent,
    hd, hsel, hbt, het, hp, Traveller.empty_results]

/-- `process_request` when every step succeeds and the plan is built. -/
theorem process_request_success {δ φ η χ ρ : Type}
    (d : Traveller.AgentResponse (Traveller.DestinationData δ))
    (bk : δ → Traveller.AgentResponse (Traveller.BookingData φ η))
    (ex : δ → Traveller.AgentResponse (Traveller.ExploreData χ ρ))
    (fs : Traveller.TravelPlan δ φ η χ ρ → String)
    (sid : String) (req : Traveller.TravelRequest) (sel : δ)
    (plan : Traveller.TravelPlan δ φ η χ ρ)
    (hd : d.success = true) (hsel : Traveller.selected_destination d = some sel)
    (hbt : (bk sel).success = true) (het : (ex sel).success = true)
    (hp : Traveller.create_complete_plan req d (bk sel) (ex sel) = some plan) :
    Traveller.process_request d bk ex fs sid req =
      (Traveller.create_response "TravelCoordinator" true
          (Traveller.success_message d.message (bk sel).message (ex sel).message
            (fs plan) sid)
          (some (Traveller.CoordData.finalData
            ⟨plan, sid, ["DestinationAgent", "BookingAgent", "ExploreAgent"],
              plan.total_cost⟩)),
        ⟨req, "completed", ["destination", "booking", "explore"],
          ⟨d.data, (bk sel).data, (ex sel).data, some plan⟩⟩,
        ["destination", "booking", "explore"]) := by
  simp [Traveller.process_request, Traveller.handoff_to_destination_agent,
    Traveller.handoff_to_booking_agent, Traveller.handoff_to_explore_agent,
    hd, hsel, hbt, het, hp, Traveller.empty_results]

/-- C1: `process_request` invokes the specialized agents in the fixed order
destination, booking, explore, each at most once (the invocation trace is a
prefix of that sequence, so nothing is retried or reordered); a success
response is returned only when all three steps succeeded (and then the trace
is the full sequence); and when all three succeed and the plan is assembled,
the response is the success response carrying the complete travel plan and
the session is marked "completed". -/
theorem C1_pipeline_spec {δ φ η χ ρ : Type}
    (d : Traveller.AgentResponse (Traveller.DestinationData δ))
    (bk : δ → Traveller.AgentResponse (Traveller.BookingData φ η))
    (ex : δ → Traveller.AgentResponse (Traveller.ExploreData χ ρ))
    (fs : Traveller.TravelPlan δ φ η χ ρ → String)
    (sid : String) (req : Traveller.TravelRequest) :
    ((Traveller.process_request d bk ex fs sid req).2.2 = ["destination"] ∨
      (Traveller.process_request d bk ex fs sid req).2.2 = ["destination", "booking"] ∨
      (Traveller.process_request d bk ex fs sid req).2.2 =
        ["destination", "booking", "explore"]) ∧
    ((Traveller.process_request d bk ex fs sid req).1.success = true →
      d.success = true ∧
      ∃ sel, Traveller.selected_destination d = some sel ∧
        (bk sel).success = true ∧ (ex sel).success = true ∧
        (Traveller.process_request d bk ex fs sid req).2.2 =
          ["destination", "booking", "explore"]) ∧
    (∀ sel, Traveller.selected_destination d = some sel →
      d.success = true → (bk sel).success = true → (ex sel).success = true →
      ∀ plan, Traveller.create_complete_plan req d (bk sel) (ex sel) = some plan →
        (Traveller.process_request d bk ex fs sid req).1.success = true ∧
        (Traveller.process_request d bk ex fs sid req).1.data =
          some (Traveller.CoordData.finalData
            ⟨plan, sid, ["DestinationAgent", "BookingAgent", "ExploreAgent"],
              plan.total_cost⟩) ∧
        (Traveller.process_request d bk ex fs sid req).2.1.status = "completed") := by
  refine ⟨?_, ?_, ?_⟩
  · cases hd : d.success with
    | false => rw [process_request_dest_fail d bk ex fs sid req hd]; left; rfl
    | true =>
      cases hsel : Traveller.selected_destination d with
      | none => rw [process_request_sel_none d bk ex fs sid req hd hsel]; left; rfl
      | some sel =>
        cases hb : (bk sel).success with
        | false =>
          rw [process_request_book_fail d bk ex fs sid req sel hd hsel hb]
          right; left; rfl
        | true =>
          cases he : (ex sel).success with
          | false =>
            rw [process_request_explore_fail d bk ex fs sid req sel hd hsel hb he]
            right; right; rfl
          | true =>
            cases hp : Traveller.create_complete_plan req d (bk sel) (ex sel) with
            | none =>
              rw [process_request_plan_none d bk ex fs sid req sel hd hsel hb he hp]
              right; right; rfl
            | some plan =>
              rw [process_request_success d bk ex fs sid req sel plan hd hsel hb he hp]
              right; right; rfl
  · intro hs
    cases hd : d.success with
    | false =>
      rw [process_request_dest_fail d bk ex fs sid req hd] at hs
      simp [Traveller.map_data, hd] at hs
    | true =>
      refine ⟨rfl, ?_⟩
      cases hsel : Traveller.selected_destination d with
      | none =>
        rw [process_request_sel_none d bk ex fs sid req hd hsel] at hs
        simp [Traveller.create_response] at hs
      | some sel =>
        cases hb : (bk sel).success with
        | false =>
          rw [process_request_book_fail d bk ex fs sid req sel hd hsel hb] at hs
          simp [Traveller.map_data, hb] at hs
        | true =>
          cases he : (ex sel).success with
          | false =>
            rw [process_request_explore_fail d bk ex fs sid req sel hd hsel hb he] at hs
            simp [Traveller.map_data, he] at hs
          | true =>
            cases hp : Traveller.create_complete_plan req d (bk sel) (ex sel) with
            | none =>
              rw [process_request_plan_none d bk ex fs sid req sel hd hsel hb he hp] at hs
              simp [Traveller.create_response] at hs
            | some plan =>
              rw [process_request_success d bk ex fs sid req sel plan hd hsel hb he hp]
              exact ⟨sel, rfl, hb, he, rfl⟩
  · intro sel hsel hd hbt het plan hp
    rw [process_request_success d bk ex fs sid req sel plan hd hsel hbt het hp]
    exact ⟨rfl, rfl, rfl⟩

theorem C1_pipeline_witness :
    (Traveller.process_request
        (⟨true, "dmsg", some ⟨[⟨"Paris"⟩]⟩, "DestinationAgent"⟩ :
          Traveller.AgentResponse (Traveller.DestinationData String))
        (fun _ => (⟨true, "bmsg", some ⟨["F1"], ["H1"], 100⟩, "BookingAgent"⟩ :
          Traveller.AgentResponse (Traveller.BookingData String String)))
        (fun _ => (⟨true, "emsg", some ⟨["A1"], ["R1"]⟩, "ExploreAgent"⟩ :
          Traveller.AgentResponse (Traveller.ExploreData String String)))
        (fun _ => "summary") "s1" ⟨"U", [], "adventure", "moderate", 1, []⟩).1.success =
      true ∧
    (Traveller.process_request
        (⟨true, "dmsg", some ⟨[⟨"Paris"⟩]⟩, "DestinationAgent"⟩ :
          Traveller.AgentResponse (Traveller.DestinationData String))
        (fun _ => (⟨true, "bmsg", some ⟨["F1"], ["H1"], 100⟩, "BookingAgent"⟩ :
          Traveller.AgentResponse (Traveller.BookingData String String)))
        (fun _ => (⟨true, "emsg", some ⟨["A1"], ["R1"]⟩, "ExploreAgent"⟩ :
          Traveller.AgentResponse (Traveller.ExploreData String String)))
        (fun _ => "summary") "s1" ⟨"U", [], "adventure", "moderate", 1, []⟩).1.data =
      some (Traveller.CoordData.finalData
        ⟨⟨⟨"U", [], "adventure", "moderate", 1, []⟩, "Paris", ["F1"], some "H1",
            ["A1"], ["R1"], 100, "complete"⟩,
          "s1", ["DestinationAgent", "BookingAgent", "ExploreAgent"], 100⟩) ∧
    (Traveller.process_request
        (⟨true, "dmsg", some ⟨[⟨"Paris"⟩]⟩, "DestinationAgent"⟩ :
          Traveller.AgentResponse (Traveller.DestinationData String))
        (fun _ => (⟨true, "bmsg", some ⟨["F1"], ["H1"], 100⟩, "BookingAgent"⟩ :
          Traveller.AgentResponse (Traveller.BookingData String String)))
        (fun _ => (⟨true, "emsg", some ⟨["A1"], ["R1"]⟩, "ExploreAgent"⟩ :
          Traveller.AgentResponse (Traveller.ExploreData String String)))
        (fun _ => "summary") "s1" ⟨"U", [], "adventure", "moderate", 1, []⟩).2.1.status =
      "completed" :=
  (C1_pipeline_spec
      (⟨true, "dmsg", some ⟨[⟨"Paris"⟩]⟩, "DestinationAgent"⟩ :
        Traveller.AgentResponse (Traveller.DestinationData String))
      (fun _ => (⟨true, "bmsg", some ⟨["F1"], ["H1"], 100⟩, "BookingAgent"⟩ :
        Traveller.AgentResponse (Traveller.BookingData String String)))
      (fun _ => (⟨true, "emsg", some ⟨["A1"], ["R1"]⟩, "ExploreAgent"⟩ :
        Traveller.AgentResponse (Traveller.ExploreData String String)))
      (fun _ => "summary") "s1" ⟨"U", [], "adventure", "moderate", 1, []⟩).2.2
    "Paris" rfl rfl rfl rfl
    ⟨⟨"U", [], "adventure", "moderate", 1, []⟩, "Paris", ["F1"], some "H1",
      ["A1"], ["R1"], 100, "complete"⟩ rfl

/-- C2: when a pipeline step fails, `process_request` returns that failing
response unchanged (re-typed only), the remaining steps are never invoked
(the trace stops at the failing step), and the session keeps the recorded
results and `steps_completed` entries of every earlier successful step with
its status still "started". -/
theorem C2_failure_spec {δ φ η χ ρ : Type}
    (d : Traveller.AgentResponse (Traveller.DestinationData δ))
    (bk : δ → Traveller.AgentResponse (Traveller.BookingData φ η))
    (ex : δ → Traveller.AgentResponse (Traveller.ExploreData χ ρ))
    (fs : Traveller.TravelPlan δ φ η χ ρ → String)
    (sid : String) (req : Traveller.TravelRequest) :
    (d.success = false →
      Traveller.process_request d bk ex fs sid req =
        (Traveller.map_data Traveller.CoordData.destinationData d,
          ⟨req, "started", [], ⟨none, none, none, none⟩⟩, ["destination"])) ∧
    (∀ sel, d.success = true → Traveller.selected_destination d = some sel →
      (bk sel).success = false →
      Traveller.process_request d bk ex fs sid req =
        (Traveller.map_data Traveller.CoordData.bookingData (bk sel),
          ⟨req, "started", ["destination"], ⟨d.data, none, none, none⟩⟩,
          ["destination", "booking"])) ∧
    (∀ sel, d.success = true → Traveller.selected_destination d = some sel →
      (bk sel).success = true → (ex sel).success = false →
      Traveller.process_request d bk ex fs sid req =
        (Traveller.map_data Traveller.CoordData.exploreData (ex sel),
          ⟨req, "started", ["destination", "booking"],
            ⟨d.data, (bk sel).data, none, none⟩⟩,
          ["destination", "booking", "explore"])) := by
  refine ⟨?_, ?_, ?_⟩
  · intro hd
    rw [process_request_dest_fail d bk ex fs sid req hd]
    rfl
  · intro sel hd hsel hb
    rw [process_request_book_fail d bk ex fs sid req sel hd hsel hb]
  · intro sel hd hsel hbt he
    rw [process_request_explore_fail d bk ex fs sid req sel hd hsel hbt he]

theorem C2_failure_witness :
    Traveller.process_request
        (⟨true, "dmsg", some ⟨[⟨"Paris"⟩]⟩, "DestinationAgent"⟩ :
          Traveller.AgentResponse (Traveller.DestinationData String))
        (fun _ => (⟨false, "no flights", none, "BookingAgent"⟩ :
          Traveller.AgentResponse (Traveller.BookingData String String)))
        (fun _ => (⟨true, "emsg", some ⟨["A1"], ["R1"]⟩, "ExploreAgent"⟩ :
          Traveller.AgentResponse (Traveller.ExploreData String String)))
        (fun _ => "summary") "s1" ⟨"U", [], "adventure", "moderate", 1, []⟩ =
      (Traveller.map_data Traveller.CoordData.bookingData
          (⟨false, "no flights", none, "BookingAgent"⟩ :
            Traveller.AgentResponse (Traveller.BookingData String String)),
        ⟨⟨"U", [], "adventure", "moderate", 1, []⟩, "started", ["destination"],
          ⟨some ⟨[⟨"Paris"⟩]⟩, none, none, none⟩⟩,
        ["destination", "booking"]) :=
  (C2_failure_spec
      (⟨true, "dmsg", some ⟨[⟨"Paris"⟩]⟩, "DestinationAgent"⟩ :
        Traveller.AgentResponse (Traveller.DestinationData String))
      (fun _ => (⟨false, "no flights", none, "BookingAgent"⟩ :
        Traveller.AgentResponse (Traveller.BookingData String String)))
      (fun _ => (⟨true, "emsg", some ⟨["A1"], ["R1"]⟩, "ExploreAgent"⟩ :
        Traveller.AgentResponse (Traveller.ExploreData String String)))
      (fun _ => "summary") "s1" ⟨"U", [], "adventure", "moderate", 1, []⟩).2.1
    "Paris" rfl rfl rfl

/-- C3: `process_user_query` routes every query to exactly one agent by the
ordered keyword chain over the lower-cased query — career words first, then
skill words, then job words, with the `CareerAgent` as default — and the
returned dictionary names the selected agent as `primary_agent`. -/
theorem C3_routing_spec (career_agent skill_agent job_agent : String → String)
    (query : String) :
    (CareerMentor.any_word_in ["career", "path", "field", "recommend"]
        (PyStr.py_lower query) = true →
      (CareerMentor.process_user_query career_agent skill_agent job_agent
        query).primary_agent = "CareerAgent") ∧
    (CareerMentor.any_word_in ["career", "path", "field", "recommend"]
        (PyStr.py_lower query) = false →
      CareerMentor.any_word_in ["skill", "learn", "roadmap", "training"]
        (PyStr.py_lower query) = true →
      (CareerMentor.process_user_query career_agent skill_agent job_agent
        query).primary_agent = "SkillAgent") ∧
    (CareerMentor.any_word_in ["career", "path", "field", "recommend"]
        (PyStr.py_lower query) = false →
      CareerMentor.any_word_in ["skill", "learn", "roadmap", "training"]
        (PyStr.py_lower query) = false →
      CareerMentor.any_word_in ["job", "role", "position", "interview", "salary"]
        (PyStr.py_lower query) = true →
      (CareerMentor.process_user_query career_agent skill_agent job_agent
        query).primary_agent = "JobAgent") ∧
    (CareerMentor.any_word_in ["career", "path", "field", "recommend"]
        (PyStr.py_lower query) = false →
      CareerMentor.any_word_in ["skill", "learn", "roadmap", "training"]
        (PyStr.py_lower query) = false →
      CareerMentor.any_word_in ["job", "role", "position", "interview", "salary"]
        (PyStr.py_lower query) = false →
      (CareerMentor.process_user_query career_agent skill_agent job_agent
        query).primary_agent = "CareerAgent") ∧
    ((CareerMentor.process_user_query career_agent skill_agent job_agent
        query).primary_agent = "CareerAgent" ∨
      (CareerMentor.process_user_query career_agent skill_agent job_agent
        query).primary_agent = "SkillAgent" ∨
      (CareerMentor.process_user_query career_agent skill_agent job_agent
        query).primary_agent = "JobAgent") := by
  refine ⟨?_, ?_, ?_, ?_, ?_⟩
  · intro h1
    simp [CareerMentor.process_user_query, h1, CareerMentor.handle_career_query]
  · intro h1 h2
    simp [CareerMentor.process_user_query, h1, h2, CareerMentor.handle_skill_query]
  · intro h1 h2 h3
    simp [CareerMentor.process_user_query, h1, h2, h3, CareerMentor.handle_job_query]
  · intro h1 h2 h3
    simp [CareerMentor.process_user_query, h1, h2, h3, CareerMentor.handle_career_query]
  · by_cases h1 : CareerMentor.any_word_in ["career", "path", "field", "recommend"]
        (PyStr.py_lower query) = true
    · left
      simp [CareerMentor.process_user_query, h1, CareerMentor.handle_career_query]
    · rw [Bool.not_eq_true] at h1
      by_cases h2 : CareerMentor.any_word_in ["skill", "learn", "roadmap", "training"]
          (PyStr.py_lower query) = true
      · right; left
        simp [CareerMentor.process_user_query, h1, h2, CareerMentor.handle_skill_query]
      · rw [Bool.not_eq_true] at h2
        by_cases h3 : CareerMentor.any_word_in
            ["job", "role", "position", "interview", "salary"]
            (PyStr.py_lower query) = true
        · right; right
          simp [CareerMentor.process_user_query, h1, h2, h3,
            CareerMentor.handle_job_query]
        · rw [Bool.not_eq_true] at h3
          left
          simp [CareerMentor.process_user_query, h1, h2, h3,
            CareerMentor.handle_career_query]

theorem C3_routing_witness :
    (CareerMentor.process_user_query (fun _ => "r1") (fun _ => "r2") (fun _ => "r3")
      "I want a job").primary_agent = "JobAgent" :=
  (C3_routing_spec (fun _ => "r1") (fun _ => "r2") (fun _ => "r3")
      "I want a job").2.2.1 (by decide) (by decide) (by decide)

/-- C4 counterexample: in the Traveller app an LLM-call error is converted by
`BaseAgent.call_gemini` into a string that does NOT begin with
"Error generating response: " — it begins with
"Error: Unable to process request - " instead — so the claimed universal
prefix fails. -/
theorem C4_counterexample :
    Traveller.call_gemini (Traveller.make_config (some "key"))
        (Traveller.init_agent (Traveller.make_config (some "key")) "DestinationAgent"
          "desc")
        (fun _ => Except.error "boom") "plan a trip" none =
      "Error: Unable to process request - boom" ∧
    PyStr.startsWithSeq
        (Traveller.call_gemini (Traveller.make_config (some "key"))
          (Traveller.init_agent (Traveller.make_config (some "key")) "DestinationAgent"
            "desc")
          (fun _ => Except.error "boom") "plan a trip" none).toList
        "Error generating response: ".toList = false := by
  exact ⟨rfl, by decide⟩

/-- C4 (amended): every LLM-call error is caught at the call site and turned
into an error string, never propagating and with the API consulted for a
single call: `GeminiClient.generate_response` and the Game Master
`BaseAgent.generate_response` return "Error generating response: " followed by
the exception text (the Game Master history is then left untouched), while the
Traveller `BaseAgent.call_gemini` returns "Error: Unable to process request - "
followed by the exception text. -/
theorem C4_error_handling_spec (e prompt context system_prompt user_input : String)
    (history : List (String × String)) (game_state : Option String)
    (cfg : Traveller.Config) (ag : Traveller.AgentState) (tprompt : String)
    (tcontext : Option String) :
    CareerMentor.generate_response (fun _ => Except.error e) prompt context =
      "Error generating response: " ++ e ∧
    (GameMaster.generate_response system_prompt history (fun _ => Except.error e)
        user_input game_state).1 = "Error generating response: " ++ e ∧
    (GameMaster.generate_response system_prompt history (fun _ => Except.error e)
        user_input game_state).2 = history ∧
    (ag.model = true →
      Traveller.call_gemini cfg ag (fun _ => Except.error e) tprompt tcontext =
        "Error: Unable to process request - " ++ e) := by
  refine ⟨?_, ?_, ?_, ?_⟩
  · unfold CareerMentor.generate_response
    split <;> rfl
  · cases game_state <;> rfl
  · cases game_state <;> rfl
  · intro h
    simp [Traveller.call_gemini, h]

theorem C4_error_handling_witness :
    Traveller.call_gemini (Traveller.make_config (some "k"))
        (Traveller.init_agent (Traveller.make_config (some "k")) "A" "d")
        (fun _ => Except.error "x") "p" none =
      "Error: Unable to process request - x" :=
  (C4_error_handling_spec "x" "p" "" "s" "u" [] none (Traveller.make_config (some "k"))
      (Traveller.init_agent (Traveller.make_config (some "k")) "A" "d") "p" none).2.2.2
    rfl

/-- C5: `Config.TIMEOUT_SECONDS` is never applied — `call_gemini` run under
any two values of `TIMEOUT_SECONDS` (both in the config the method sees and in
the config the agent was initialized with) yields the same result, for every
prompt and API outcome, so no code path enforces a timeout on the wrapped
blocking call. -/
theorem C5_timeout_never_applied (key : Option String) (t1 t2 : Int)
    (name description prompt : String) (context : Option String)
    (api : String → Except String String) :
    Traveller.call_gemini { Traveller.make_config key with TIMEOUT_SECONDS := t1 }
        (Traveller.init_agent { Traveller.make_config key with TIMEOUT_SECONDS := t1 }
          name description) api prompt context =
      Traveller.call_gemini { Traveller.make_config key with TIMEOUT_SECONDS := t2 }
        (Traveller.init_agent { Traveller.make_config key with TIMEOUT_SECONDS := t2 }
          name description) api prompt context := rfl

/-- C10: `get_coordinator_stats` is total and self-consistent for every
session map: `total_sessions = completed_sessions + active_sessions`, and
`success_rate` is guarded against division by zero, returning `0` with no
sessions and `completed_sessions / total_sessions * 100` otherwise. -/
theorem C10_coordinator_stats_spec {δ φ η χ ρ : Type}
    (active_sessions : List (String × Traveller.Session δ φ η χ ρ))
    (agent_names : List String) :
    (Traveller.get_coordinator_stats active_sessions agent_names).total_sessions =
      (Traveller.get_coordinator_stats active_sessions agent_names).completed_sessions +
        (Traveller.get_coordinator_stats active_sessions agent_names).active_sessions ∧
    (active_sessions.length = 0 →
      (Traveller.get_coordinator_stats active_sessions agent_names).success_rate = 0) ∧
    (active_sessions.length ≠ 0 →
      (Traveller.get_coordinator_stats active_sessions agent_names).success_rate =
        ((Traveller.get_coordinator_stats active_sessions
            agent_names).completed_sessions : ℚ) /
          ((Traveller.get_coordinator_stats active_sessions
            agent_names).total_sessions : ℚ) * 100) := by
  refine ⟨?_, ?_, ?_⟩
  · have h := List.length_filter_le
      (fun s : String × Traveller.Session δ φ η χ ρ => s.2.status == "completed")
      active_sessions
    simp only [Traveller.get_coordinator_stats]
    omega
  · intro h
    simp [Traveller.get_coordinator_stats, h]
  · intro h
    simp only [Traveller.get_coordinator_stats]
    rw [if_pos (Nat.pos_of_ne_zero h)]

theorem C10_coordinator_stats_witness :
    (Traveller.get_coordinator_stats
        ([("s1", ⟨⟨"U", [], "adventure", "moderate", 1, []⟩, "completed",
            ["destination", "booking", "explore"], ⟨none, none, none, none⟩⟩)] :
          List (String × Traveller.Session Unit Unit Unit Unit Unit))
        ["DestinationAgent", "BookingAgent", "ExploreAgent"]).total_sessions =
      (Traveller.get_coordinator_stats
        ([("s1", ⟨⟨"U", [], "adventure", "moderate", 1, []⟩, "completed",
            ["destination", "booking", "explore"], ⟨none, none, none, none⟩⟩)] :
          List (String × Traveller.Session Unit Unit Unit Unit Unit))
        ["DestinationAgent", "BookingAgent", "ExploreAgent"]).completed_sessions +
      (Traveller.get_coordinator_stats
        ([("s1", ⟨⟨"U", [], "adventure", "moderate", 1, []⟩, "completed",
            ["destination", "booking", "explore"], ⟨none, none, none, none⟩⟩)] :
          List (String × Traveller.Session Unit Unit Unit Unit Unit))
        ["DestinationAgent", "BookingAgent", "ExploreAgent"]).active_sessions ∧
    (Traveller.get_coordinator_stats
        ([("s1", ⟨⟨"U", [], "adventure", "moderate", 1, []⟩, "completed",
            ["destination", "booking", "explore"], ⟨none, none, none, none⟩⟩)] :
          List (String × Traveller.Session Unit Unit Unit Unit Unit))
        ["DestinationAgent", "BookingAgent", "ExploreAgent"]).success_rate =
      ((Traveller.get_coordinator_stats
        ([("s1", ⟨⟨"U", [], "adventure", "moderate", 1, []⟩, "completed",
            ["destination", "booking", "explore"], ⟨none, none, none, none⟩⟩)] :
          List (String × Traveller.Session Unit Unit Unit Unit Unit))
        ["DestinationAgent", "BookingAgent", "ExploreAgent"]).completed_sessions : ℚ) /
      ((Traveller.get_coordinator_stats
        ([("s1", ⟨⟨"U", [], "adventure", "moderate", 1, []⟩, "completed",
            ["destination", "booking", "explore"], ⟨none, none, none, none⟩⟩)] :
          List (String × Traveller.Session Unit Unit Unit Unit Unit))
        ["DestinationAgent", "BookingAgent", "ExploreAgent"]).total_sessions : ℚ) *
      100 :=
  ⟨(C10_coordinator_stats_spec
      ([("s1", ⟨⟨"U", [], "adventure", "moderate", 1, []⟩, "completed",
          ["destination", "booking", "explore"], ⟨none, none, none, none⟩⟩)] :
        List (String × Traveller.Session Unit Unit Unit Unit Unit))
      ["DestinationAgent", "BookingAgent", "ExploreAgent"]).1,
    (C10_coordinator_stats_spec
      ([("s1", ⟨⟨"U", [], "adventure", "moderate", 1, []⟩, "completed",
          ["destination", "booking", "explore"], ⟨none, none, none, none⟩⟩)] :
        List (String × Traveller.Session Unit Unit Unit Unit Unit))
      ["DestinationAgent", "BookingAgent", "ExploreAgent"]).2.2 (by decide)⟩
